import Mathlib

/-!
# Verification of the Databricks environment compliance rule engine

Shallow embedding of the compliance rule engine of this repository:
the documentation validators (`tests/validators/documentation.py`),
the clustering validators (`tests/validators/clustering.py`),
the comprehensive aggregator (`tests/validators/comprehensive.py`)
and the results recording layer (`results/results.py`), together with
theorems settling the specification claims about them.

Python strings are modelled as Lean `String` (a list of Unicode
characters, matching Python's code-point view); `str.strip`, `str.lower`
and the anchored regular expressions used by the validators are modelled
for the ASCII character ranges they are exercised on.  Python numbers are
modelled as `Int`/`Rat`.  A Python expression that raises (`float(...)`
on a non-numeric string, tuple unpacking of the wrong arity) is modelled
by `Option`, with `none` for the raised exception.
-/

namespace PyStr

/-- The ASCII whitespace characters stripped by Python's `str.strip()`
and matched by the regex class `\s` (space, tab, newline, carriage
return, vertical tab, form feed). -/
def pyIsSpace (c : Char) : Bool :=
  c.toNat = 32 || c.toNat = 9 || c.toNat = 10 || c.toNat = 13
    || c.toNat = 11 || c.toNat = 12

/-- ASCII lowercasing of one character, as Python's `str.lower()` acts on
the ASCII range. -/
def pyLowerChar (c : Char) : Char :=
  if 'A' ≤ c && c ≤ 'Z' then Char.ofNat (c.toNat + 32) else c

/-- Drop leading Python whitespace from a character list (the regex
`\s*` consumed greedily, or the left half of `str.strip()`). -/
def dropSpaces (cs : List Char) : List Char := cs.dropWhile pyIsSpace

/-- `str.strip()` on a character list: remove leading and trailing
Python whitespace. -/
def pyStripList (cs : List Char) : List Char :=
  ((cs.dropWhile pyIsSpace).reverse.dropWhile pyIsSpace).reverse

/-- `str.strip()` on a string. -/
def pyStrip (s : String) : String := String.mk (pyStripList s.toList)

/-- `str.lower()` on a string (ASCII range). -/
def pyLower (s : String) : String := String.mk (s.toList.map pyLowerChar)

/-- Match a literal pattern at the head of a character list, returning
the rest of the list on success. -/
def stripPrefixCh : List Char → List Char → Option (List Char)
  | [], s => some s
  | _ :: _, [] => none
  | p :: ps, c :: cs => if p = c then stripPrefixCh ps cs else none

/-- Substring containment of `pat` in `s` (Python's `pat in s`,
`re.search` of a literal pattern). -/
def listContainsSub (pat : List Char) : List Char → Bool
  | [] => (stripPrefixCh pat []).isSome
  | c :: cs => (stripPrefixCh pat (c :: cs)).isSome || listContainsSub pat cs

/-- `pat in s` for strings. -/
def strContains (s pat : String) : Bool := listContainsSub pat.toList s.toList

/-- `s.startswith(pat)` / `re.search("^pat", s)` for a literal `pat`. -/
def strStartsWith (s pat : String) : Bool :=
  (stripPrefixCh pat.toList s.toList).isSome

/-- `s.endswith(pat)` / `re.search("pat$", s)` for a literal `pat`. -/
def strEndsWith (s pat : String) : Bool :=
  (stripPrefixCh pat.toList.reverse s.toList.reverse).isSome

end PyStr

namespace Model

open PyStr

/-- `ColumnInfo` from `tests/utils/discovery.py`: immutable column
metadata (`name`, `type_text`, optional `comment`). -/
structure ColumnInfo where
  name : String
  type_text : String
  comment : Option String := none
deriving DecidableEq, Repr

/-- A Python value stored in a table `properties` dict.  Covers the
shapes the validators inspect: `None`, booleans, integers, strings and
(nested) lists. -/
inductive PyVal where
  | none
  | bool (b : Bool)
  | int (n : Int)
  | str (s : String)
  | list (xs : List PyVal)

/-- Python truthiness test (`if not value`) on a property value:
`None`, `False`, `0`, `""` and `[]` are falsy. -/
def pyFalsy : PyVal → Bool
  | .none => true
  | .bool b => !b
  | .int n => n = 0
  | .str s => s.isEmpty
  | .list xs => xs.isEmpty

mutual

/-- Python `str(value)` on a property value (`repr` for nested lists,
matching Python's list rendering with single-quoted strings). -/
def pyToStr : PyVal → String
  | .none => "None"
  | .bool b => if b then "True" else "False"
  | .int n => toString n
  | .str s => s
  | .list xs => "[" ++ pyToStrList xs ++ "]"

/-- Comma-joined `repr` of the elements of a Python list. -/
def pyToStrList : List PyVal → String
  | [] => ""
  | [x] => pyReprElem x
  | x :: y :: rest => pyReprElem x ++ ", " ++ pyToStrList (y :: rest)

/-- Python `repr` of a list element (strings are quoted). -/
def pyReprElem : PyVal → String
  | .str s => "'" ++ s ++ "'"
  | .none => "None"
  | .bool b => if b then "True" else "False"
  | .int n => toString n
  | .list xs => "[" ++ pyToStrList xs ++ "]"

end

/-- `TableInfo` from `tests/utils/discovery.py`: immutable table
metadata.  `properties` distinguishes absent (`none`) from
present-but-empty (`some []`); a dict is an association list looked up
by exact key. -/
structure TableInfo where
  catalog : String
  schema : String
  table : String
  comment : Option String := Option.none
  columns : List ColumnInfo := []
  properties : Option (List (String × PyVal)) := Option.none

/-- `dict.get(key)`: first value bound to `key`, if any. -/
def alookup {α : Type} (k : String) : List (String × α) → Option α
  | [] => Option.none
  | (k', v) :: rest => if k = k' then some v else alookup k rest

end Model

namespace Documentation

open PyStr Model

/-- One entry of `get_critical_column_patterns_with_boundaries()` in
`tests/utils/config_loader.py`: a critical-column pattern together with
its `word_boundary` flag (default `false`, i.e. substring matching). -/
structure PatternInfo where
  pattern : String
  word_boundary : Bool := false
deriving DecidableEq, Repr

/-- The configuration the `DocumentationValidator` constructor loads:
minimum comment length, required column-coverage percentage, the
critical-column patterns, the placeholder token list and its
case-sensitivity flag. -/
structure DocConfig where
  minimum_comment_length : Int := 10
  required_column_coverage_percent : Rat := 80
  critical_patterns : List PatternInfo := []
  placeholder_patterns : List String := []
  placeholder_case_sensitive : Bool := false

/-- The documentation rule shared by all column checks:
`bool(comment and comment.strip())` — a comment is documentation iff it
is non-null and non-blank after trimming. -/
def isDocumented (comment : Option String) : Bool :=
  match comment with
  | none => false
  | some s => !(pyStrip s).isEmpty

/-- `DocumentationValidator.has_comment`: the table comment is non-null
and non-blank after trimming. -/
def has_comment (table : TableInfo) : Bool :=
  match table.comment with
  | none => false
  | some s => !(pyStrip s).isEmpty

/-- `DocumentationValidator.has_minimum_length`: `false` for a null
comment, else the untrimmed character count is at least
`minimum_comment_length`. -/
def has_minimum_length (cfg : DocConfig) (table : TableInfo) : Bool :=
  match table.comment with
  | none => false
  | some s => cfg.minimum_comment_length ≤ (s.toList.length : Int)

/-- `re.search(rf"^\s*{pattern}\s*:", s)` for a literal token `pattern`:
after leading whitespace the token must appear, followed by optional
whitespace and a colon.  (The source interpolates the configured token
into the regex unescaped; the model covers tokens that are regex
literals, which all configured placeholder tokens are.) -/
def reSearchTokenColon (pat s : String) : Bool :=
  match stripPrefixCh pat.toList (dropSpaces s.toList) with
  | some rest =>
    match dropSpaces rest with
    | ':' :: _ => true
    | _ => false
  | none => false

/-- `re.search(rf"^\s*{pattern}\s*$", s)` for a literal token `pattern`:
after leading whitespace the token must appear, followed only by
whitespace to the end of the string. -/
def reSearchTokenEnd (pat s : String) : Bool :=
  match stripPrefixCh pat.toList (dropSpaces s.toList) with
  | some rest => (dropSpaces rest).isEmpty
  | none => false

/-- `DocumentationValidator.has_placeholder_comment`: `false` for a null
or blank-after-trim comment; otherwise `true` iff the (case-folded)
trimmed comment equals a configured token exactly, or matches one of the
phrase regexes `^\s*token\s*:` / `^\s*token\s*$` built from the
configured tokens (the `any(...)` over the concatenated phrase list is
split into its two halves). -/
def has_placeholder_comment (cfg : DocConfig) (table : TableInfo) : Bool :=
  match table.comment with
  | none => false
  | some raw =>
    let comment := pyStrip raw
    if comment.isEmpty then false
    else
      let check := if cfg.placeholder_case_sensitive then comment else pyLower comment
      (cfg.placeholder_patterns.any fun p =>
        check = (if cfg.placeholder_case_sensitive then p else pyLower p))
      || (cfg.placeholder_patterns.any fun p => reSearchTokenColon p check)
      || (cfg.placeholder_patterns.any fun p => reSearchTokenEnd p check)

/-- The six word-boundary regexes of
`DocumentationValidator._is_column_critical`, applied to the lowercased
column name `s` for the (escaped, hence literal) lowercased pattern `p`:
`^p$`, `^p_`, `_p_`, `_p$`, `p$` and `^p(?=[A-Z])`. -/
def wordBoundaryMatch (p s : String) : Bool :=
  (s = p)
  || strStartsWith s (p ++ "_")
  || strContains s ("_" ++ p ++ "_")
  || strEndsWith s ("_" ++ p)
  || strEndsWith s p
  || (strStartsWith s p &&
      (match s.toList.drop p.toList.length with
       | c :: _ => 'A' ≤ c && c ≤ 'Z'
       | [] => false))

/-- `DocumentationValidator._is_column_critical`: the lowercased column
name matches some configured pattern, by word-boundary matching when the
pattern's flag is set and by substring containment otherwise. -/
def is_column_critical (column_name_lower : String)
    (patterns : List PatternInfo) : Bool :=
  patterns.any fun pi =>
    let p := pyLower pi.pattern
    if pi.word_boundary then wordBoundaryMatch p column_name_lower
    else strContains column_name_lower p

/-- `DocumentationValidator.get_undocumented_critical_columns`: the
names, in column order, of the columns whose lowercased name matches a
critical pattern and whose comment fails the documentation rule. -/
def get_undocumented_critical_columns (cfg : DocConfig)
    (table : TableInfo) : List String :=
  if table.columns.isEmpty then []
  else
    table.columns.filterMap fun col =>
      if is_column_critical (pyLower col.name) cfg.critical_patterns
          && !isDocumented col.comment
      then some col.name else none

/-- `DocumentationValidator.has_all_critical_columns_documented`: the
undocumented-critical-column list is empty. -/
def has_all_critical_columns_documented (cfg : DocConfig)
    (table : TableInfo) : Bool :=
  (get_undocumented_critical_columns cfg table).length = 0

/-- `DocumentationValidator.calculate_column_documentation_percentage`:
`100.0` for a table with no columns, else
`100 * documented / total` as an exact rational. -/
def calculate_column_documentation_percentage (table : TableInfo) : Rat :=
  if table.columns.isEmpty then 100
  else
    let documented := (table.columns.filter fun col => isDocumented col.comment).length
    ((documented : Rat) / (table.columns.length : Rat)) * 100

/-- `DocumentationValidator.meets_column_documentation_threshold`: the
percentage above compared with `>=` against the explicit threshold, or
against the configured coverage percentage when the argument is
omitted (`None`). -/
def meets_column_documentation_threshold (cfg : DocConfig)
    (table : TableInfo) (threshold : Option Rat) : Bool :=
  let th := threshold.getD cfg.required_column_coverage_percent
  th ≤ calculate_column_documentation_percentage table

/-- `DocumentationValidator.get_undocumented_columns`: the names, in
column order, of all columns failing the documentation rule. -/
def get_undocumented_columns (table : TableInfo) : List String :=
  if table.columns.isEmpty then []
  else
    table.columns.filterMap fun col =>
      if !isDocumented col.comment then some col.name else none

end Documentation

namespace Json

open Model

mutual

/-- One step of the recursive-descent JSON reader used to model
`json.loads` on clustering metadata.  `fuel` bounds the recursion depth;
it is instantiated with the input length, which suffices because every
recursive call consumes at least one character.  The modelled subset is
the one clustering metadata exercises: arrays, double-quoted strings
without escape sequences, integers, `true`, `false` and `null`. -/
def parseValue (fuel : Nat) (cs : List Char) :
    Option (PyVal × List Char) :=
  match fuel with
  | 0 => none
  | fuel + 1 =>
    match PyStr.dropSpaces cs with
    | 'n' :: 'u' :: 'l' :: 'l' :: rest => some (.none, rest)
    | 't' :: 'r' :: 'u' :: 'e' :: rest => some (.bool true, rest)
    | 'f' :: 'a' :: 'l' :: 's' :: 'e' :: rest => some (.bool false, rest)
    | '"' :: rest =>
      let content := rest.takeWhile (· ≠ '"')
      if content.length < rest.length then
        some (.str (String.mk content), rest.drop (content.length + 1))
      else none
    | '[' :: rest =>
      match PyStr.dropSpaces rest with
      | ']' :: rest => some (.list [], rest)
      | _ => parseElems fuel rest []
    | '-' :: rest =>
      let digits := rest.takeWhile Char.isDigit
      if digits.isEmpty then none
      else some (.int (-(String.mk digits).toNat!), rest.drop digits.length)
    | c :: rest =>
      if c.isDigit then
        let digits := (c :: rest).takeWhile Char.isDigit
        some (.int (String.mk digits).toNat!, (c :: rest).drop digits.length)
      else none
    | [] => none

/-- Comma-separated JSON array elements, accumulated until `]`. -/
def parseElems (fuel : Nat) (cs : List Char) (acc : List PyVal) :
    Option (PyVal × List Char) :=
  match fuel with
  | 0 => none
  | fuel + 1 =>
    match parseValue fuel cs with
    | none => none
    | some (v, rest) =>
      match PyStr.dropSpaces rest with
      | ',' :: rest => parseElems fuel rest (acc ++ [v])
      | ']' :: rest => some (.list (acc ++ [v]), rest)
      | _ => none

end

/-- `json.loads` on the modelled subset: the whole input must be one
value surrounded only by whitespace; `none` models the raised
`JSONDecodeError`. -/
def json_loads (s : String) : Option PyVal :=
  match parseValue (s.toList.length + 1) s.toList with
  | some (v, rest) => if (PyStr.dropSpaces rest).isEmpty then some v else none
  | none => none

end Json

namespace Clustering

open PyStr Model

/-- The configuration the `ClusteringValidator` constructor loads, with
the defaults named by the specification (`clusteringColumns`,
`cluster_exclusion`, both boolean switches on). -/
structure ClusteringConfig where
  clustering_property_name : String := "clusteringColumns"
  max_clustering_columns : Int := 4
  honor_exclusion_flag : Bool := true
  exclusion_property_name : String := "cluster_exclusion"
  exempt_small_tables : Bool := true

/-- `ClusteringValidator._parse_clustering_data`: `[]` when `properties`
is absent or empty, when the clustering property is missing or falsy,
when a string value fails to parse as JSON or parses to a non-list, and
when the value is neither a string nor a list; otherwise the (parsed)
list as-is. -/
def parse_clustering_data (cfg : ClusteringConfig)
    (table : TableInfo) : List PyVal :=
  match table.properties with
  | none => []
  | some props =>
    if props.isEmpty then []
    else
      match alookup cfg.clustering_property_name props with
      | none => []
      | some raw =>
        if pyFalsy raw then []
        else
          match raw with
          | .str s =>
            match Json.json_loads s with
            | some (.list xs) => xs
            | some _ => []
            | none => []
          | .list xs => xs
          | _ => []

/-- `ClusteringValidator.has_clustering_columns`:
`bool(clustering_data and len(clustering_data) > 0)` — the parsed
clustering list is non-empty. -/
def has_clustering_columns (cfg : ClusteringConfig)
    (table : TableInfo) : Bool :=
  !(parse_clustering_data cfg table).isEmpty

/-- `ClusteringValidator.get_clustering_columns`: first element of each
non-empty inner list of the parsed data, in order; empty and non-list
groups are skipped. -/
def get_clustering_columns (cfg : ClusteringConfig)
    (table : TableInfo) : List PyVal :=
  let clustering_data := parse_clustering_data cfg table
  if clustering_data.isEmpty then []
  else
    clustering_data.filterMap fun group =>
      match group with
      | .list (x :: _) => some x
      | _ => none

/-- `ClusteringValidator.count_clustering_columns`: length of
`get_clustering_columns`. -/
def count_clustering_columns (cfg : ClusteringConfig)
    (table : TableInfo) : Nat :=
  (get_clustering_columns cfg table).length

/-- `ClusteringValidator.has_cluster_exclusion`: `false` when the
exclusion flag is not honored, when `properties` is absent, or when the
exclusion property is missing or falsy; otherwise the property's string
form, lowercased, must equal `"true"`. -/
def has_cluster_exclusion (cfg : ClusteringConfig)
    (table : TableInfo) : Bool :=
  if !cfg.honor_exclusion_flag then false
  else
    match table.properties with
    | none => false
    | some props =>
      match alookup cfg.exclusion_property_name props with
      | none => false
      | some v =>
        if pyFalsy v then false
        else pyLower (pyToStr v) = "true"

/-- `ClusteringValidator.is_exempt_from_clustering_requirements` as it
stands in `tests/validators/clustering.py`: exactly
`has_cluster_exclusion` (its docstring notes that size-based exemption
is not implemented there). -/
def is_exempt_from_clustering_requirements (cfg : ClusteringConfig)
    (table : TableInfo) : Bool :=
  has_cluster_exclusion cfg table

/-- `ClusteringValidator.should_enforce_clustering_requirements`: the
negation of `is_exempt_from_clustering_requirements`. -/
def should_enforce_clustering_requirements (cfg : ClusteringConfig)
    (table : TableInfo) : Bool :=
  !(is_exempt_from_clustering_requirements cfg table)

end Clustering

namespace SpecModel

open Model Clustering

/-- Modelled from the spec: `is_small_table(table, threshold_bytes,
size_bytes)` is absent from `src/` (only its unit tests call it).  Per
§4.2: `false` if size-exemption is disabled by configuration or if
`size_bytes` is null; else `true` iff `size_bytes < threshold_bytes`
(strict). -/
def is_small_table (cfg : ClusteringConfig) (_table : TableInfo)
    (threshold_bytes : Int) (size_bytes : Option Int) : Bool :=
  if !cfg.exempt_small_tables then false
  else
    match size_bytes with
    | none => false
    | some size => size < threshold_bytes

/-- Modelled from the spec: the size-aware
`is_exempt_from_clustering_requirements(table, threshold_bytes=None,
size_bytes=None)` overload is absent from `src/` (only its unit tests
call it).  Per §4.2: `true` iff `has_cluster_exclusion(table)` OR
(`threshold_bytes` given AND `is_small_table(table, threshold_bytes,
size_bytes)`); manual exclusion short-circuits without size data. -/
def is_exempt_from_clustering_requirements (cfg : ClusteringConfig)
    (table : TableInfo) (threshold_bytes : Option Int)
    (size_bytes : Option Int) : Bool :=
  has_cluster_exclusion cfg table
  || (match threshold_bytes with
      | none => false
      | some threshold => is_small_table cfg table threshold size_bytes)

end SpecModel

namespace Comprehensive

open PyStr Model Documentation

/-- `">=" in check`: the check string contains the two-character
separator `>=`. -/
def containsGe : List Char → Bool
  | '>' :: '=' :: _ => true
  | _ :: rest => containsGe rest
  | [] => false

/-- `check.split(">=")`: split on every occurrence of `>=`, left to
right (Python's `str.split` with a non-empty separator). -/
def splitOnGe : List Char → List (List Char)
  | '>' :: '=' :: rest => [] :: splitOnGe rest
  | c :: rest =>
    match splitOnGe rest with
    | part :: parts => (c :: part) :: parts
    | [] => [[c]]
  | [] => [[]]

/-- Python `float(s)` on a stripped string, as an exact rational:
optional sign, decimal digits with an optional point (at least one digit
overall) and an optional signed exponent.  `none` models the raised
`ValueError`.  (Underscore digit grouping and `inf`/`nan`, which Python
also accepts, are outside the modelled subset.) -/
def pyParseFloat (s : String) : Option Rat :=
  let cs := s.toList
  let (sign, cs) : Rat × List Char :=
    match cs with
    | '+' :: rest => (1, rest)
    | '-' :: rest => (-1, rest)
    | _ => (1, cs)
  let intPart := cs.takeWhile Char.isDigit
  let cs := cs.dropWhile Char.isDigit
  let (hasDot, fracPart, cs) : Bool × List Char × List Char :=
    match cs with
    | '.' :: rest => (true, rest.takeWhile Char.isDigit, rest.dropWhile Char.isDigit)
    | _ => (false, [], cs)
  if intPart.isEmpty && (!hasDot || fracPart.isEmpty) then none
  else
    let mantissa : Rat :=
      (intPart.foldl (fun a c => a * 10 + ((c.toNat - 48 : Nat) : Rat)) 0)
      + (fracPart.foldl (fun a c => a * 10 + ((c.toNat - 48 : Nat) : Rat)) 0)
        / (10 : Rat) ^ fracPart.length
    match cs with
    | [] => some (sign * mantissa)
    | e :: rest =>
      if e = 'e' || e = 'E' then
        let (esign, rest) : Int × List Char :=
          match rest with
          | '+' :: r => (1, r)
          | '-' :: r => (-1, r)
          | _ => (1, rest)
        let expDigits := rest.takeWhile Char.isDigit
        let rest := rest.dropWhile Char.isDigit
        if expDigits.isEmpty || !rest.isEmpty then none
        else
          let exp : Int := esign * (expDigits.foldl (fun a c => a * 10 + (c.toNat - 48 : Nat)) 0 : Nat)
          some (sign * mantissa * (10 : Rat) ^ exp)
      else none

/-- `ComprehensiveComplianceResult` from
`tests/validators/comprehensive.py` (the `table` field carries the input
table; `individual_results` is the name→bool map in insertion order). -/
structure ComplianceCheckResult where
  table : TableInfo
  overall_compliant : Bool
  individual_results : List (String × Bool)
  failure_reasons : List String

/-- `ComprehensiveDocumentationValidator._run_individual_validators`:
the fixed five-entry name→bool map, with `column_coverage_80` computed
against the hardcoded `80.0` threshold. -/
def run_individual_validators (cfg : DocConfig)
    (table : TableInfo) : List (String × Bool) :=
  [ ("table_has_comment", has_comment table),
    ("table_comment_length", has_minimum_length cfg table),
    ("no_placeholder_comments", !has_placeholder_comment cfg table),
    ("column_coverage_80", meets_column_documentation_threshold cfg table (some 80)),
    ("critical_columns_documented", has_all_critical_columns_documented cfg table) ]

/-- `ComprehensiveDocumentationValidator._evaluate_check`: direct lookup
in `individual_results`; otherwise a check containing `>=` is split
(raising — `none` — unless that yields exactly two parts with a
float-parseable right part) and dispatched to the column-coverage
threshold when the left part strips to `column_coverage`; every other
check falls through to `False` after a logged warning. -/
def evaluate_check (cfg : DocConfig) (check : String)
    (table : TableInfo)
    (individual_results : List (String × Bool)) : Option Bool :=
  match alookup check individual_results with
  | some b => some b
  | none =>
    if containsGe check.toList then
      match splitOnGe check.toList with
      | [m, t] =>
        let metric := String.mk (pyStripList m)
        match pyParseFloat (String.mk (pyStripList t)) with
        | none => none
        | some threshold =>
          if metric = "column_coverage" then
            some (meets_column_documentation_threshold cfg table (some threshold))
          else some false
      | _ => none
    else some false

/-- The `for check in self._required_checks` loop of
`evaluate_table_compliance`: evaluates each required check in order,
returning the conjunction of the results and the `"Failed: <check>"`
reasons of the failing checks, in check order; `none` propagates a
raised check evaluation. -/
def runChecks (cfg : DocConfig) (table : TableInfo)
    (individual_results : List (String × Bool)) :
    List String → Option (Bool × List String)
  | [] => some (true, [])
  | check :: rest =>
    match evaluate_check cfg check table individual_results with
    | none => none
    | some ok =>
      match runChecks cfg table individual_results rest with
      | none => none
      | some (restOk, reasons) =>
        some (restOk && ok, if ok then reasons else ("Failed: " ++ check) :: reasons)

/-- `ComprehensiveDocumentationValidator.evaluate_table_compliance`:
runs the individual validators, evaluates every configured required
check against them and assembles the result record; `none` models an
uncaught `ValueError` from a malformed `>=` check. -/
def evaluate_table_compliance (cfg : DocConfig)
    (required_checks : List String)
    (table : TableInfo) : Option ComplianceCheckResult :=
  let individual_results := run_individual_validators cfg table
  match runChecks cfg table individual_results required_checks with
  | none => none
  | some (ok, reasons) =>
    some { table := table, overall_compliant := ok,
           individual_results := individual_results,
           failure_reasons := reasons }

end Comprehensive

namespace Results

/-- `ComplianceResult` from `results/results.py`: the per-check
aggregated record appended by the recording layer. -/
structure ComplianceResult where
  domain : String
  total_objects : Int
  compliant_objects : Int
  non_compliant_objects : Int
  compliance_rate : Rat
  violations : List String
  timestamp : String

/-- `record_compliance_result` from `results/results.py`: constructs the
`ComplianceResult` with `non_compliant = total - compliant` and
`compliance_rate = compliant / total * 100` when `total_objects > 0`,
else `0` (the timestamp is an external input to the model). -/
def record_compliance_result (domain : String) (total_objects : Int)
    (compliant_objects : Int) (violations : List String)
    (timestamp : String) : ComplianceResult :=
  { domain := domain,
    total_objects := total_objects,
    compliant_objects := compliant_objects,
    non_compliant_objects := total_objects - compliant_objects,
    compliance_rate :=
      if 0 < total_objects then
        (compliant_objects : Rat) / (total_objects : Rat) * 100
      else 0,
    violations := violations,
    timestamp := timestamp }

end Results

namespace Fixtures

open Model

/-- Default documentation configuration (spec §6 defaults). -/
def docCfg : Documentation.DocConfig := {}

/-- Default clustering configuration (spec §6 defaults). -/
def clusterCfg : Clustering.ClusteringConfig := {}

/-- A plainly documented table with no properties and no columns. -/
def plainTable : TableInfo :=
  { catalog := "main", schema := "sales", table := "orders",
    comment := some "Order fact table for the sales domain." }

/-- A table carrying `cluster_exclusion="true"` and no clustering
columns. -/
def excludedTable : TableInfo :=
  { catalog := "main", schema := "sales", table := "excluded",
    comment := some "Manually excluded from clustering.",
    properties := some [("cluster_exclusion", .str "true")] }

/-- A table whose clustering property holds one empty inner list. -/
def emptyInnerClusteringTable : TableInfo :=
  { catalog := "main", schema := "sales", table := "empty_inner",
    properties := some [("clusteringColumns", .list [.list []])] }

/-- A table with one well-formed clustering column. -/
def oneClusteringTable : TableInfo :=
  { catalog := "main", schema := "sales", table := "clustered",
    properties := some [("clusteringColumns", .list [.list [.str "region"]])] }

end Fixtures

namespace Documentation

open PyStr Model

/-- Modelled from the spec: the placeholder token list lives in
`tests/config/documentation_config.yaml`, which is not under `src/`;
these are §6's example tokens, lowercased as the engine's
case-insensitive matching requires (the unit tests show both `"todo"`
and `"TODO: ..."` comments detected, which the code only does with
lowercase stored tokens). -/
def defaultPlaceholderPatterns : List String :=
  ["todo", "fixme", "tbd", "xxx", "hack", "placeholder", "temp", "n/a"]

/-- The specification's reading of `has_placeholder_comment` (§4.1),
stated from the spec's words: a null or blank-after-trim comment is
never a placeholder; otherwise the trimmed comment must equal a
configured token exactly (case-insensitively) or match
`^\s*<token>\s*:` — the token at the very start followed by a colon. -/
def placeholder_comment_spec (patterns : List String)
    (comment : Option String) : Bool :=
  match comment with
  | none => false
  | some raw =>
    let t := pyStrip raw
    if t.isEmpty then false
    else
      patterns.any fun p =>
        (pyLower t = pyLower p) || reSearchTokenColon (pyLower p) (pyLower t)

end Documentation

section Claims

open PyStr Model Documentation Clustering Comprehensive Results Fixtures

/-- Claim C1: with pattern `id` under word-boundary mode,
`get_undocumented_critical_columns` classifies the undocumented columns
`user_id` and `UserId` as critical, as the claim states — but it also
returns `humidity_relative_id`, which the claim (and the source's own
comment, `documentation.py` line 129) says must never be returned: the
`_id$` and `id$` regexes of `_is_column_critical` match it.  This
evaluation exhibits the divergence. -/
theorem C1_word_boundary_humidity_returned :
    Documentation.get_undocumented_critical_columns
      { critical_patterns := [{ pattern := "id", word_boundary := true }] }
      { catalog := "main", schema := "iot", table := "readings",
        columns := [ { name := "user_id", type_text := "INT" },
                     { name := "UserId", type_text := "INT" },
                     { name := "humidity_relative_id", type_text := "DOUBLE" } ] }
      = ["user_id", "UserId", "humidity_relative_id"] := by
  decide

/-- Claim C2: the size-aware exemption (modelled from the spec, the
overload being absent from `src/`) is exactly manual exclusion OR a
given threshold under which the table is small; manual exclusion
short-circuits for every size argument, and a small table is exempt
without the exclusion flag. -/
theorem C2_exemption_decomposition (cfg : Clustering.ClusteringConfig)
    (table : TableInfo) (thOpt size : Option Int) :
    (SpecModel.is_exempt_from_clustering_requirements cfg table thOpt size = true ↔
      (Clustering.has_cluster_exclusion cfg table = true ∨
        ∃ threshold, thOpt = some threshold ∧
          SpecModel.is_small_table cfg table threshold size = true))
    ∧ (Clustering.has_cluster_exclusion cfg table = true →
        SpecModel.is_exempt_from_clustering_requirements cfg table thOpt size = true)
    ∧ ∀ threshold, thOpt = some threshold →
        SpecModel.is_small_table cfg table threshold size = true →
        SpecModel.is_exempt_from_clustering_requirements cfg table thOpt size = true := by
  refine ⟨?_, ?_, ?_⟩
  · unfold SpecModel.is_exempt_from_clustering_requirements
    cases thOpt with
    | none => simp
    | some t => simp [Bool.or_eq_true]
  · intro h
    unfold SpecModel.is_exempt_from_clustering_requirements
    simp [h]
  · intro threshold hth hsmall
    subst hth
    unfold SpecModel.is_exempt_from_clustering_requirements
    simp [hsmall]

/-- Witness for C2: a table with `cluster_exclusion="true"` is exempt at
a size far above the threshold and at a null size, and a small table
below threshold is exempt without the flag. -/
theorem C2_exemption_decomposition_witness :
    Clustering.has_cluster_exclusion clusterCfg excludedTable = true
    ∧ SpecModel.is_exempt_from_clustering_requirements clusterCfg excludedTable
        (some 1073741824) (some 99999999999) = true
    ∧ SpecModel.is_exempt_from_clustering_requirements clusterCfg excludedTable
        (some 1073741824) none = true
    ∧ SpecModel.is_exempt_from_clustering_requirements clusterCfg plainTable
        (some 1073741824) (some 4096) = true :=
  ⟨by decide,
   (C2_exemption_decomposition clusterCfg excludedTable (some 1073741824)
      (some 99999999999)).2.1 (by decide),
   (C2_exemption_decomposition clusterCfg excludedTable (some 1073741824)
      none).2.1 (by decide),
   (C2_exemption_decomposition clusterCfg plainTable (some 1073741824)
      (some 4096)).2.2 1073741824 rfl (by decide)⟩

/-- Counterexample to claim C3: with clustering property `[[]]` (one
empty inner list) the parsed list is non-empty, so
`has_clustering_columns` is `true`, while every inner list is skipped
and `count_clustering_columns` is `0` — refuting the claimed
equivalence between `has_clustering_columns` and a non-empty
skip-normalized list. -/
theorem C3_empty_inner_counterexample :
    Clustering.has_clustering_columns clusterCfg emptyInnerClusteringTable = true
    ∧ Clustering.count_clustering_columns clusterCfg emptyInnerClusteringTable = 0 := by
  constructor
  · decide
  · decide

/-- Claim C3, amended: `has_clustering_columns` is `true` iff the parsed
clustering list is non-empty before malformed/empty inner lists are
skipped; consequently a positive `count_clustering_columns` implies
`has_clustering_columns`, but not conversely. -/
theorem C3_has_iff_parsed_nonempty (cfg : Clustering.ClusteringConfig)
    (table : TableInfo) :
    Clustering.has_clustering_columns cfg table
      = !(Clustering.parse_clustering_data cfg table).isEmpty
    ∧ (0 < Clustering.count_clustering_columns cfg table →
        Clustering.has_clustering_columns cfg table = true) := by
  refine ⟨rfl, ?_⟩
  intro h
  by_cases hp : (Clustering.parse_clustering_data cfg table).isEmpty
  · exfalso
    simp [Clustering.count_clustering_columns, Clustering.get_clustering_columns, hp] at h
  · simp [Clustering.has_clustering_columns, hp]

/-- Witness for C3 (amended): a table with one well-formed clustering
column has a positive count, hence `has_clustering_columns`. -/
theorem C3_has_iff_parsed_nonempty_witness :
    Clustering.has_clustering_columns clusterCfg oneClusteringTable = true :=
  (C3_has_iff_parsed_nonempty clusterCfg oneClusteringTable).2 (by decide)

/-- Claim C5: `should_enforce_clustering_requirements` is the exact
boolean negation of `is_exempt_from_clustering_requirements` for every
table — the two never return the same boolean. -/
theorem C5_enforce_negates_exempt (cfg : Clustering.ClusteringConfig)
    (table : TableInfo) :
    Clustering.should_enforce_clustering_requirements cfg table
      = !(Clustering.is_exempt_from_clustering_requirements cfg table)
    ∧ Clustering.should_enforce_clustering_requirements cfg table
      ≠ Clustering.is_exempt_from_clustering_requirements cfg table := by
  refine ⟨rfl, ?_⟩
  cases h : Clustering.is_exempt_from_clustering_requirements cfg table <;>
    simp [Clustering.should_enforce_clustering_requirements, h]

/-- Witness for C5 at concrete tables (one exempt, one not). -/
theorem C5_enforce_negates_exempt_witness :
    Clustering.should_enforce_clustering_requirements clusterCfg excludedTable
      ≠ Clustering.is_exempt_from_clustering_requirements clusterCfg excludedTable
    ∧ Clustering.should_enforce_clustering_requirements clusterCfg plainTable
      ≠ Clustering.is_exempt_from_clustering_requirements clusterCfg plainTable :=
  ⟨(C5_enforce_negates_exempt clusterCfg excludedTable).2,
   (C5_enforce_negates_exempt clusterCfg plainTable).2⟩

/-- Claim C7: every `ComplianceResult` built by
`record_compliance_result` satisfies
`non_compliant_objects = total - compliant`, with
`compliance_rate = compliant/total*100` for positive totals and `0` for
a zero total. -/
theorem C7_compliance_result_invariants (domain : String)
    (total compliant : Int) (violations : List String) (ts : String) :
    (Results.record_compliance_result domain total compliant violations ts).non_compliant_objects
        = total - compliant
    ∧ (0 < total →
        (Results.record_compliance_result domain total compliant violations ts).compliance_rate
          = (compliant : Rat) / (total : Rat) * 100)
    ∧ (total = 0 →
        (Results.record_compliance_result domain total compliant violations ts).compliance_rate
          = 0) := by
  refine ⟨rfl, ?_, ?_⟩
  · intro h
    simp [Results.record_compliance_result, h]
  · intro h
    subst h
    simp [Results.record_compliance_result]

/-- Witness for C7 at a concrete record (10 objects, 7 compliant) and a
concrete empty record. -/
theorem C7_compliance_result_invariants_witness :
    (Results.record_compliance_result "documentation" 10 7 [] "ts").non_compliant_objects
        = 10 - 7
    ∧ (Results.record_compliance_result "documentation" 10 7 [] "ts").compliance_rate
        = ((7 : Int) : Rat) / ((10 : Int) : Rat) * 100
    ∧ (Results.record_compliance_result "documentation" 0 0 [] "ts").compliance_rate = 0 :=
  ⟨(C7_compliance_result_invariants "documentation" 10 7 [] "ts").1,
   (C7_compliance_result_invariants "documentation" 10 7 [] "ts").2.1 (by norm_num),
   (C7_compliance_result_invariants "documentation" 0 0 [] "ts").2.2 rfl⟩

/-- Claim C8: a table with zero columns has a documentation percentage
of exactly `100`, and meets the coverage threshold for every effective
threshold at most `100`. -/
theorem C8_zero_columns_vacuous (cfg : Documentation.DocConfig)
    (table : TableInfo) (threshold : Option Rat)
    (h : table.columns = []) :
    Documentation.calculate_column_documentation_percentage table = 100
    ∧ (threshold.getD cfg.required_column_coverage_percent ≤ 100 →
        Documentation.meets_column_documentation_threshold cfg table threshold = true) := by
  have he : table.columns.isEmpty = true := by simp [h]
  constructor
  · simp [Documentation.calculate_column_documentation_percentage, he]
  · intro hth
    simp [Documentation.meets_column_documentation_threshold,
          Documentation.calculate_column_documentation_percentage, he]
    exact hth

/-- Witness for C8: the zero-column `plainTable` at explicit threshold
`80` and at the configured default. -/
theorem C8_zero_columns_vacuous_witness :
    Documentation.calculate_column_documentation_percentage plainTable = 100
    ∧ Documentation.meets_column_documentation_threshold docCfg plainTable (some 80) = true
    ∧ Documentation.meets_column_documentation_threshold docCfg plainTable none = true :=
  ⟨(C8_zero_columns_vacuous docCfg plainTable (some 80) rfl).1,
   (C8_zero_columns_vacuous docCfg plainTable (some 80) rfl).2 (by norm_num),
   (C8_zero_columns_vacuous docCfg plainTable none rfl).2 (by norm_num [Fixtures.docCfg])⟩

end Claims

section Claims2

open PyStr Model Documentation Clustering Comprehensive Results Fixtures

/-- A `filterMap` by a stronger condition yields a sublist of the
`filterMap` by a weaker one. -/
theorem filterMap_sublist_of_imp {α β : Type} (f g : α → Option β)
    (l : List α) (h : ∀ a b, f a = some b → g a = some b) :
    (l.filterMap f).Sublist (l.filterMap g) := by
  induction l with
  | nil => simp
  | cons a l ih =>
    rw [List.filterMap_cons, List.filterMap_cons]
    cases hf : f a with
    | none =>
      cases hg : g a with
      | none => exact ih
      | some b => exact ih.cons b
    | some b =>
      rw [h a b hf]
      exact ih.cons₂ b

/-- Claim C9: the undocumented-critical-column list is an
order-preserving subsequence of the undocumented-column list — both
apply the same non-null, non-blank-after-trim rule, so every critical
undocumented name also appears among the undocumented names, in the
same relative order. -/
theorem C9_critical_sublist_of_undocumented (cfg : Documentation.DocConfig)
    (table : TableInfo) :
    (Documentation.get_undocumented_critical_columns cfg table).Sublist
      (Documentation.get_undocumented_columns table)
    ∧ ∀ name ∈ Documentation.get_undocumented_critical_columns cfg table,
        name ∈ Documentation.get_undocumented_columns table := by
  have hsub : (Documentation.get_undocumented_critical_columns cfg table).Sublist
      (Documentation.get_undocumented_columns table) := by
    unfold Documentation.get_undocumented_critical_columns
      Documentation.get_undocumented_columns
    by_cases he : table.columns.isEmpty
    · simp [he]
    · simp only [he, if_false]
      refine filterMap_sublist_of_imp _ _ _ ?_
      intro col name hcol
      by_cases hcrit : Documentation.is_column_critical (pyLower col.name)
          cfg.critical_patterns && !Documentation.isDocumented col.comment
      · have hdoc : (!Documentation.isDocumented col.comment) = true := by
          simp only [Bool.and_eq_true] at hcrit
          exact hcrit.2
        rw [if_pos hcrit] at hcol
        rw [hdoc]
        simpa using hcol
      · rw [if_neg hcrit] at hcol
        exact absurd hcol (by simp)
  exact ⟨hsub, fun name hname => hsub.subset hname⟩

/-- Counterexample to claim C10: a configured required check whose
`>=`-threshold part does not parse as a float (`"rows >= many"`) makes
`evaluate_table_compliance` raise (`none` in the model) instead of
returning an `individual_results` map at all. -/
theorem C10_unparseable_check_counterexample :
    (Comprehensive.evaluate_table_compliance docCfg ["rows >= many"] plainTable).isNone
      = true := by
  decide

/-- Claim C10, amended: whenever `evaluate_table_compliance` returns
(i.e. no configured `>=` check has an unparseable threshold), the
`individual_results` map is exactly the fixed five-key map of
`_run_individual_validators` — independent of the configured required
checks — and `column_coverage_80` is computed against the hardcoded
`80.0` threshold. -/
theorem C10_individual_results_fixed (cfg : Documentation.DocConfig)
    (required : List String) (table : TableInfo)
    (r : Comprehensive.ComplianceCheckResult)
    (h : Comprehensive.evaluate_table_compliance cfg required table = some r) :
    r.individual_results = Comprehensive.run_individual_validators cfg table
    ∧ r.individual_results.map Prod.fst
        = ["table_has_comment", "table_comment_length", "no_placeholder_comments",
           "column_coverage_80", "critical_columns_documented"]
    ∧ Model.alookup "column_coverage_80" r.individual_results
        = some (Documentation.meets_column_documentation_threshold cfg table (some 80)) := by
  cases hrun : Comprehensive.runChecks cfg table
      (Comprehensive.run_individual_validators cfg table) required with
  | none =>
    simp only [Comprehensive.evaluate_table_compliance, hrun] at h
    exact absurd h (by simp)
  | some p =>
    obtain ⟨ok, reasons⟩ := p
    simp only [Comprehensive.evaluate_table_compliance, hrun,
      Option.some.injEq] at h
    subst h
    refine ⟨rfl, rfl, ?_⟩
    simp [Comprehensive.run_individual_validators, Model.alookup]

/-- Witness for C10 (amended): a concrete one-check run returns, and its
`individual_results` keys are the fixed five. -/
theorem C10_individual_results_fixed_witness :
    ((Comprehensive.evaluate_table_compliance docCfg ["table_has_comment"] plainTable).map
        fun r => r.individual_results.map Prod.fst)
      = some ["table_has_comment", "table_comment_length", "no_placeholder_comments",
              "column_coverage_80", "critical_columns_documented"] := by
  cases h : Comprehensive.evaluate_table_compliance docCfg ["table_has_comment"] plainTable with
  | none =>
    have hs : (Comprehensive.evaluate_table_compliance docCfg ["table_has_comment"]
        plainTable).isSome = true := by decide
    rw [h] at hs
    exact absurd hs (by simp)
  | some r =>
    have := (C10_individual_results_fixed docCfg ["table_has_comment"] plainTable r h).2.1
    simp [this]

end Claims2

section Claims3

open PyStr Model Documentation Clustering Comprehensive Results Fixtures

/-- If some required check evaluates to `false`, a completed
`runChecks` pass reports non-compliance and carries that check's
failure reason. -/
theorem runChecks_mem_false (cfg : Documentation.DocConfig)
    (table : TableInfo) (ind : List (String × Bool)) (check : String)
    (hcheck : Comprehensive.evaluate_check cfg check table ind = some false) :
    ∀ (cs : List String) (ok : Bool) (fs : List String), check ∈ cs →
      Comprehensive.runChecks cfg table ind cs = some (ok, fs) →
      ok = false ∧ ("Failed: " ++ check) ∈ fs := by
  intro cs
  induction cs with
  | nil => intro ok fs hmem; exact absurd hmem (by simp)
  | cons c rest ih =>
    intro ok fs hmem hrun
    unfold Comprehensive.runChecks at hrun
    cases hc : Comprehensive.evaluate_check cfg c table ind with
    | none => rw [hc] at hrun; exact absurd hrun (by simp)
    | some b =>
      rw [hc] at hrun
      cases hr : Comprehensive.runChecks cfg table ind rest with
      | none => rw [hr] at hrun; exact absurd hrun (by simp)
      | some q =>
        obtain ⟨restOk, reasons⟩ := q
        rw [hr] at hrun
        simp only [Option.some.injEq, Prod.mk.injEq] at hrun
        obtain ⟨hok, hfs⟩ := hrun
        rcases List.mem_cons.mp hmem with heq | hmemrest
        · subst heq
          rw [hcheck] at hc
          have hb : b = false := by
            simpa using hc.symm
          subst hb
          refine ⟨by simpa using hok, ?_⟩
          subst hfs
          simp
        · obtain ⟨hok2, hmem2⟩ := ih restOk reasons hmemrest hr
          subst hok
          subst hok2
          refine ⟨by simp, ?_⟩
          subst hfs
          cases b <;> simp [hmem2]

/-- Counterexample to claim C6: the check name `"size >= big"` is
neither a key of the per-table results map nor a recognized
`<metric> >= <threshold>` form — yet `_evaluate_check` raises a
`ValueError` on `float(" big")` (`none` in the model) rather than
scoring the check as failing, and `evaluate_table_compliance` therefore
returns no result at all for a table configured with that check. -/
theorem C6_unparseable_threshold_counterexample :
    Model.alookup "size >= big"
        (Comprehensive.run_individual_validators docCfg plainTable) = none
    ∧ Comprehensive.evaluate_check docCfg "size >= big" plainTable
        (Comprehensive.run_individual_validators docCfg plainTable) = none
    ∧ (Comprehensive.evaluate_table_compliance docCfg ["size >= big"] plainTable).isNone
        = true := by
  refine ⟨by decide, by decide, by decide⟩

/-- Claim C6, amended: a required check that is not a key of the
results map is scored as failing — never passing — provided it either
contains no `>=`, or splits on `>=` into exactly two parts with a
float-parseable threshold and a metric other than `column_coverage`
(otherwise the evaluation raises instead of scoring); a table whose
configured checks include such a name is reported non-compliant with
`"Failed: <check>"` among its failure reasons. -/
theorem C6_unknown_check_fails_closed (cfg : Documentation.DocConfig)
    (table : TableInfo) (check : String)
    (hkey : Model.alookup check
        (Comprehensive.run_individual_validators cfg table) = none)
    (hform : Comprehensive.containsGe check.toList = false
      ∨ (Comprehensive.containsGe check.toList = true
          ∧ ∃ m t th, Comprehensive.splitOnGe check.toList = [m, t]
              ∧ Comprehensive.pyParseFloat (String.mk (pyStripList t)) = some th
              ∧ String.mk (pyStripList m) ≠ "column_coverage")) :
    Comprehensive.evaluate_check cfg check table
        (Comprehensive.run_individual_validators cfg table) = some false
    ∧ ∀ (required : List String) (r : Comprehensive.ComplianceCheckResult),
        check ∈ required →
        Comprehensive.evaluate_table_compliance cfg required table = some r →
        r.overall_compliant = false ∧ ("Failed: " ++ check) ∈ r.failure_reasons := by
  have heval : Comprehensive.evaluate_check cfg check table
      (Comprehensive.run_individual_validators cfg table) = some false := by
    unfold Comprehensive.evaluate_check
    rw [hkey]
    rcases hform with hno | ⟨hyes, m, t, th, hsplit, hparse, hmetric⟩
    · rw [hno]
      simp
    · rw [hyes, if_pos rfl, hsplit]
      simp only [hparse]
      rw [if_neg hmetric]
  refine ⟨heval, ?_⟩
  intro required r hmem h
  cases hrun : Comprehensive.runChecks cfg table
      (Comprehensive.run_individual_validators cfg table) required with
  | none =>
    simp only [Comprehensive.evaluate_table_compliance, hrun] at h
    exact absurd h (by simp)
  | some p =>
    obtain ⟨ok, reasons⟩ := p
    simp only [Comprehensive.evaluate_table_compliance, hrun,
      Option.some.injEq] at h
    subst h
    exact runChecks_mem_false cfg table
      (Comprehensive.run_individual_validators cfg table) check heval
      required ok reasons hmem hrun

/-- Witness for C6 (amended): the unknown checks `"mystery_check"` (no
`>=`) and `"records >= 50"` (parseable threshold, unknown metric) are
scored as failing, and a run configured with `"records >= 50"` reports
the table non-compliant with the matching failure reason. -/
theorem C6_unknown_check_fails_closed_witness :
    Comprehensive.evaluate_check docCfg "mystery_check" plainTable
        (Comprehensive.run_individual_validators docCfg plainTable) = some false
    ∧ Comprehensive.evaluate_check docCfg "records >= 50" plainTable
        (Comprehensive.run_individual_validators docCfg plainTable) = some false
    ∧ ((Comprehensive.evaluate_table_compliance docCfg ["records >= 50"] plainTable).map
        fun r => (r.overall_compliant, r.failure_reasons))
      = some (false, ["Failed: records >= 50"]) :=
  ⟨(C6_unknown_check_fails_closed docCfg plainTable "mystery_check"
      (by decide) (Or.inl (by decide))).1,
   (C6_unknown_check_fails_closed docCfg plainTable "records >= 50"
      (by decide) (Or.inr ⟨by decide, "records ".toList, " 50".toList, _,
        by decide, rfl, by decide⟩)).1,
   by decide⟩

end Claims3

section Claims4

open PyStr Model Documentation Fixtures

/-- Lowercasing never turns a non-whitespace character into
whitespace. -/
theorem pyIsSpace_pyLowerChar (c : Char) (h : PyStr.pyIsSpace c = false) :
    PyStr.pyIsSpace (PyStr.pyLowerChar c) = false := by
  unfold PyStr.pyLowerChar
  by_cases hc : ('A' ≤ c && c ≤ 'Z') = true
  · rw [if_pos hc]
    simp only [Bool.and_eq_true, decide_eq_true_eq] at hc
    obtain ⟨h1, h2⟩ := hc
    rw [Char.le_def] at h1 h2
    have hlow : (65 : Nat) ≤ c.toNat := h1
    have hhigh : c.toNat ≤ 90 := h2
    have hval : (Char.ofNat (c.toNat + 32)).toNat = c.toNat + 32 := by
      unfold Char.ofNat
      split
      · rfl
      · omega
    unfold PyStr.pyIsSpace
    rw [hval]
    simp only [Bool.or_eq_false_iff, decide_eq_false_iff_not]
    omega
  · rw [if_neg hc]
    exact h

/-- Dropping leading whitespace leaves a list whose head is not
whitespace unchanged. -/
theorem dropSpaces_cons_of_not (c : Char) (cs : List Char)
    (h : PyStr.pyIsSpace c = false) :
    PyStr.dropSpaces (c :: cs) = c :: cs := by
  simp [PyStr.dropSpaces, List.dropWhile_cons, h]

/-- `pyStripList` is right-strip after left-strip. -/
theorem pyStripList_eq_rdropWhile (cs : List Char) :
    PyStr.pyStripList cs
      = List.rdropWhile PyStr.pyIsSpace (cs.dropWhile PyStr.pyIsSpace) := rfl

/-- The head of a `dropWhile` result refutes the predicate. -/
theorem dropWhile_head_not {α : Type} (p : α → Bool) :
    ∀ (l : List α) (c : α) (rest : List α),
      l.dropWhile p = c :: rest → p c = false := by
  intro l
  induction l with
  | nil => intro c rest h; simp [List.dropWhile] at h
  | cons a t ih =>
    intro c rest h
    rw [List.dropWhile_cons] at h
    by_cases hp : p a = true
    · rw [if_pos hp] at h
      exact ih c rest h
    · rw [if_neg hp] at h
      cases h
      simpa using hp

/-- A stripped list starts with a non-whitespace character. -/
theorem pyStripList_head_not_space (cs : List Char) (c : Char)
    (rest : List Char) (h : PyStr.pyStripList cs = c :: rest) :
    PyStr.pyIsSpace c = false := by
  have hpre := List.rdropWhile_prefix PyStr.pyIsSpace (cs.dropWhile PyStr.pyIsSpace)
  rw [← pyStripList_eq_rdropWhile, h] at hpre
  obtain ⟨t, ht⟩ := hpre
  refine dropWhile_head_not PyStr.pyIsSpace cs c (rest ++ t) ?_
  rw [← List.cons_append]
  exact ht.symm

/-- A stripped list, reversed, is a fixed point of leading-whitespace
removal (no trailing whitespace). -/
theorem pyStripList_rev_fixed (cs : List Char) :
    (PyStr.pyStripList cs).reverse.dropWhile PyStr.pyIsSpace
      = (PyStr.pyStripList cs).reverse := by
  have h2 : (PyStr.pyStripList cs).reverse
      = (cs.dropWhile PyStr.pyIsSpace).reverse.dropWhile PyStr.pyIsSpace := by
    rw [pyStripList_eq_rdropWhile]
    simp [List.rdropWhile]
  rw [h2]
  exact List.dropWhile_idempotent _ _

/-- Matching a list against itself as a pattern consumes everything. -/
theorem stripPrefixCh_append :
    ∀ (l r : List Char), PyStr.stripPrefixCh l (l ++ r) = some r := by
  intro l
  induction l with
  | nil => intro r; rfl
  | cons a t ih => intro r; simp [PyStr.stripPrefixCh, ih]

/-- A successful pattern match decomposes the subject. -/
theorem stripPrefixCh_eq_some :
    ∀ (p s rest : List Char), PyStr.stripPrefixCh p s = some rest →
      s = p ++ rest := by
  intro p
  induction p with
  | nil =>
    intro s rest h
    simp only [PyStr.stripPrefixCh, Option.some.injEq] at h
    rw [h]
    rfl
  | cons a t ih =>
    intro s rest h
    cases s with
    | nil => simp [PyStr.stripPrefixCh] at h
    | cons b u =>
      simp only [PyStr.stripPrefixCh] at h
      by_cases hab : a = b
      · rw [if_pos hab] at h
        subst hab
        rw [List.cons_append, ih u rest h]
      · rw [if_neg hab] at h
        exact absurd h (by simp)

/-- Strings with equal character lists are equal. -/
theorem string_ext_of_toList {s t : String} (h : s.toList = t.toList) :
    s = t := by
  cases s with
  | mk d =>
    cases t with
    | mk e =>
      simp only [String.toList] at h
      rw [h]

/-- A non-empty string has a non-empty character list. -/
theorem toList_ne_nil_of_not_isEmpty {s : String} (h : s.isEmpty = false) :
    s.toList ≠ [] := by
  intro hl
  have he : s.isEmpty = true := by
    rw [String.isEmpty_iff]
    cases s with
    | mk d => simp only [String.toList] at hl; rw [hl]
  rw [he] at h
  simp at h

/-- On a subject with no leading and no trailing whitespace, the regex
`^\s*pat\s*$` is exactly string equality with the (literal) pattern. -/
theorem reSearchTokenEnd_eq (p check : String)
    (hne : check.toList ≠ [])
    (hhd : ∀ c rest, check.toList = c :: rest → PyStr.pyIsSpace c = false)
    (htr : check.toList.reverse.dropWhile PyStr.pyIsSpace
            = check.toList.reverse) :
    Documentation.reSearchTokenEnd p check = decide (check = p) := by
  obtain ⟨c, rest0, hck⟩ : ∃ c rest0, check.toList = c :: rest0 := by
    cases hc : check.toList with
    | nil => exact absurd hc hne
    | cons c rest0 => exact ⟨c, rest0, rfl⟩
  have hds : PyStr.dropSpaces check.toList = check.toList := by
    rw [hck]
    exact dropSpaces_cons_of_not _ _ (hhd _ _ hck)
  unfold Documentation.reSearchTokenEnd
  rw [hds]
  cases hsp : PyStr.stripPrefixCh p.toList check.toList with
  | none =>
    have hne2 : check ≠ p := by
      intro he
      subst he
      rw [show PyStr.stripPrefixCh check.toList check.toList = some [] from by
        simpa using stripPrefixCh_append check.toList []] at hsp
      exact absurd hsp (by simp)
    simp [hne2]
  | some rest =>
    have hck2 : check.toList = p.toList ++ rest := stripPrefixCh_eq_some _ _ _ hsp
    by_cases hr : rest = []
    · subst hr
      have heq : check = p := string_ext_of_toList (by simpa using hck2)
      simp [heq, PyStr.dropSpaces]
    · have hne2 : check ≠ p := by
        intro he
        rw [he] at hck2
        have := congrArg List.length hck2
        simp at this
        exact hr this
      cases hdw : List.dropWhile PyStr.pyIsSpace rest with
      | nil =>
        exfalso
        have hall : ∀ x ∈ rest, PyStr.pyIsSpace x :=
          List.dropWhile_eq_nil_iff.mp hdw
        obtain ⟨cz, z, hrev⟩ : ∃ cz z, rest.reverse = cz :: z := by
          cases hrv : rest.reverse with
          | nil => exact absurd (by simpa using congrArg List.reverse hrv) hr
          | cons cz z => exact ⟨cz, z, rfl⟩
        have hcz : PyStr.pyIsSpace cz = true :=
          hall cz (by rw [← List.mem_reverse, hrev]; simp)
        have hrevck : check.toList.reverse = cz :: (z ++ p.toList.reverse) := by
          rw [hck2, List.reverse_append, hrev, List.cons_append]
        rw [hrevck, List.dropWhile_cons, if_pos hcz] at htr
        have hlen := congrArg List.length htr
        have hle := (List.dropWhile_sublist (l := z ++ p.toList.reverse)
          PyStr.pyIsSpace).length_le
        simp only [List.length_cons] at hlen
        omega
      | cons d ds =>
        simp [PyStr.dropSpaces, hdw, hne2]

/-- `List.any` respects pointwise equality on members. -/
theorem any_congr_mem {α : Type} (l : List α) (f g : α → Bool)
    (h : ∀ x ∈ l, f x = g x) : l.any f = l.any g := by
  induction l with
  | nil => rfl
  | cons a t ih =>
    simp only [List.any_cons]
    rw [h a (by simp), ih (fun x hx => h x (by simp [hx]))]

/-- `List.any` distributes over a pointwise disjunction. -/
theorem any_or_distrib {α : Type} (l : List α) (f g : α → Bool) :
    (l.any fun x => f x || g x) = (l.any f || l.any g) := by
  induction l with
  | nil => rfl
  | cons a t ih =>
    simp only [List.any_cons, ih]
    cases f a <;> cases g a <;> cases t.any f <;> cases t.any g <;> rfl

end Claims4

section Claims5

open PyStr Model Documentation Fixtures

/-- The lowercased trimmed comment is non-empty, starts with
non-whitespace, and ends with non-whitespace. -/
theorem lowered_strip_facts (raw : String)
    (hemp : (pyStrip raw).isEmpty = false) :
    (pyLower (pyStrip raw)).toList ≠ []
    ∧ (∀ c rest, (pyLower (pyStrip raw)).toList = c :: rest →
        pyIsSpace c = false)
    ∧ (pyLower (pyStrip raw)).toList.reverse.dropWhile pyIsSpace
        = (pyLower (pyStrip raw)).toList.reverse := by
  have hmap : (pyLower (pyStrip raw)).toList
      = (pyStripList raw.toList).map pyLowerChar := rfl
  have hwne : pyStripList raw.toList ≠ [] := toList_ne_nil_of_not_isEmpty hemp
  refine ⟨?_, ?_, ?_⟩
  · rw [hmap]
    simp only [ne_eq, List.map_eq_nil_iff]
    exact hwne
  · intro c rest h
    rw [hmap] at h
    cases hw : pyStripList raw.toList with
    | nil => rw [hw] at h; simp at h
    | cons c0 r0 =>
      rw [hw] at h
      simp only [List.map_cons, List.cons.injEq] at h
      obtain ⟨hc, _⟩ := h
      rw [← hc]
      exact pyIsSpace_pyLowerChar c0
        (pyStripList_head_not_space raw.toList c0 r0 hw)
  · rw [hmap]
    have hrev : ((pyStripList raw.toList).map pyLowerChar).reverse
        = ((pyStripList raw.toList).reverse).map pyLowerChar := by
      simp
    rw [hrev]
    have hfix := pyStripList_rev_fixed raw.toList
    cases hwr : (pyStripList raw.toList).reverse with
    | nil => simp
    | cons c0 z =>
      rw [hwr] at hfix
      have hc0 : pyIsSpace c0 = false := by
        by_cases hc : pyIsSpace c0 = true
        · exfalso
          rw [List.dropWhile_cons, if_pos hc] at hfix
          have hlen := congrArg List.length hfix
          have hle := (List.dropWhile_sublist (l := z) pyIsSpace).length_le
          simp only [List.length_cons] at hlen
          omega
        · simpa using hc
      simp only [List.map_cons]
      rw [List.dropWhile_cons,
        if_neg (by simp [pyIsSpace_pyLowerChar c0 hc0])]

/-- Claim C4: under the default case-insensitive configuration with
lowercase stored tokens, `has_placeholder_comment` computes exactly the
specification's rule — `false` on null or blank-after-trim comments,
else `true` iff the trimmed comment matches a configured token exactly
(case-insensitively) or has a token at the very start followed by a
colon.  The source's extra `^\s*token\s*$` phrase regex is redundant
with the exact match on an already-trimmed comment. -/
theorem C4_placeholder_matches_spec (cfg : Documentation.DocConfig)
    (hcase : cfg.placeholder_case_sensitive = false)
    (hpat : ∀ p ∈ cfg.placeholder_patterns, pyLower p = p)
    (table : TableInfo) :
    Documentation.has_placeholder_comment cfg table
      = Documentation.placeholder_comment_spec cfg.placeholder_patterns
          table.comment := by
  cases hcm : table.comment with
  | none =>
    simp [Documentation.has_placeholder_comment,
      Documentation.placeholder_comment_spec, hcm]
  | some raw =>
    by_cases hemp : (pyStrip raw).isEmpty
    · simp [Documentation.has_placeholder_comment,
        Documentation.placeholder_comment_spec, hcm, hemp]
    · rw [Bool.not_eq_true] at hemp
      obtain ⟨hne, hhd, htr⟩ := lowered_strip_facts raw hemp
      simp only [Documentation.has_placeholder_comment,
        Documentation.placeholder_comment_spec, hcm, hemp, hcase,
        Bool.false_eq_true, if_false]
      have hC : (cfg.placeholder_patterns.any fun p =>
            Documentation.reSearchTokenEnd p (pyLower (pyStrip raw)))
          = cfg.placeholder_patterns.any fun p =>
            decide (pyLower (pyStrip raw) = pyLower p) := by
        refine any_congr_mem _ _ _ ?_
        intro p hp
        rw [hpat p hp]
        exact reSearchTokenEnd_eq p (pyLower (pyStrip raw)) hne hhd htr
      have hS : (cfg.placeholder_patterns.any fun p =>
            decide (pyLower (pyStrip raw) = pyLower p)
              || Documentation.reSearchTokenColon (pyLower p)
                  (pyLower (pyStrip raw)))
          = cfg.placeholder_patterns.any fun p =>
            decide (pyLower (pyStrip raw) = pyLower p)
              || Documentation.reSearchTokenColon p (pyLower (pyStrip raw)) := by
        refine any_congr_mem _ _ _ ?_
        intro p hp
        rw [hpat p hp]
      rw [hC, hS, any_or_distrib]
      have hbool : ∀ a b : Bool, ((a || b) || a) = (a || b) := by decide
      exact hbool _ _

/-- Witness for C4: the spec's scenario under the modelled default
token list — `"TODO"` and `"TODO: Add proper documentation"` are
placeholders, `"This TODO item"` and `"Notification settings"` are
not. -/
theorem C4_placeholder_matches_spec_witness :
    (∀ p ∈ Documentation.defaultPlaceholderPatterns, pyLower p = p)
    ∧ Documentation.has_placeholder_comment
        { placeholder_patterns := Documentation.defaultPlaceholderPatterns }
        { catalog := "main", schema := "sales", table := "t",
          comment := some "TODO" } = true
    ∧ Documentation.has_placeholder_comment
        { placeholder_patterns := Documentation.defaultPlaceholderPatterns }
        { catalog := "main", schema := "sales", table := "t",
          comment := some "TODO: Add proper documentation" } = true
    ∧ Documentation.has_placeholder_comment
        { placeholder_patterns := Documentation.defaultPlaceholderPatterns }
        { catalog := "main", schema := "sales", table := "t",
          comment := some "This TODO item" } = false
    ∧ Documentation.has_placeholder_comment
        { placeholder_patterns := Documentation.defaultPlaceholderPatterns }
        { catalog := "main", schema := "sales", table := "t",
          comment := some "Notification settings" } = false :=
  ⟨by decide,
   (C4_placeholder_matches_spec _ rfl (by decide) _).trans (by decide),
   (C4_placeholder_matches_spec _ rfl (by decide) _).trans (by decide),
   (C4_placeholder_matches_spec _ rfl (by decide) _).trans (by decide),
   (C4_placeholder_matches_spec _ rfl (by decide) _).trans (by decide)⟩

end Claims5
